import Mathlib

/-!
Verification development for the spooky-pets VS Code extension
(halloween-phantom-pet).  The definitions below are a shallow embedding of
the service-layer code:

* `src/models/CommentaryResponseSchema.ts` (structured-response parsing),
* `src/services/LLMService.ts` (request building, rate-limit backoff,
  retry queue),
* `src/services/ConfigurationManager.ts` (settings and secret storage),
* `src/services/CommentaryScheduler.ts` (character-count scheduling and
  speech-bubble dismissal),
* `src/personalities/personalities.ts` (the predefined personalities).

JavaScript strings are modelled by Lean `String`, JavaScript numbers that
hold integral settings by `Int`/`Nat`, and JSON numbers by `Rat` (exact
arithmetic in place of IEEE doubles).  Host callbacks and UI side effects
(webview messages, toast messages, console logging) are outside the model;
state that the services mutate is passed explicitly.
-/

/-! ## Structured commentary responses (CommentaryResponseSchema.ts) -/

/-- Source ExpressionType.ts: the three expressions a pet can display. -/
inductive ExpressionType
  | happy
  | neutral
  | concerned
  deriving DecidableEq, Repr

/-- JSON values, used to model the result of a successful `JSON.parse`. -/
inductive Json
  | null
  | bool (b : Bool)
  | num (q : Rat)
  | str (s : String)
  | arr (elems : List Json)
  | obj (fields : List (String × Json))
  deriving Repr

/-- Field lookup in a JSON object (first binding wins, as in a parsed
JavaScript object the later duplicate overwrites the earlier one; parsed
objects are assumed duplicate-free). -/
def Json.getField (fields : List (String × Json)) (key : String) : Option Json :=
  (fields.find? (fun p => p.1 = key)).map (fun p => p.2)

/-- Source StructuredCommentaryResponse.ts: commentary text, expression,
optional sentiment score. -/
structure StructuredCommentaryResponse where
  commentary : String
  expression : ExpressionType
  sentiment : Option Rat
  deriving DecidableEq, Repr

/-- Data validated by the zod `CommentaryResponseSchema` before the cast to
`ExpressionType`: commentary is a string of length 1..200, expression is one
of the three enum strings, sentiment is an optional number in [-1, 1]. -/
structure ValidatedCommentary where
  commentary : String
  expression : String
  sentiment : Option Rat
  deriving DecidableEq, Repr

/-- Source CommentaryResponseSchema.ts lines 8-12: the zod schema
`z.object(\x7bcommentary: z.string().min(1).max(200), expression:
z.enum(...), sentiment: z.number().min(-1).max(1).optional()\x7d)` as a
validation function; `none` models a thrown `ZodError`. -/
def CommentaryResponseSchema.parse (j : Json) : Option ValidatedCommentary :=
  match j with
  | Json.obj fields =>
    match Json.getField fields "commentary", Json.getField fields "expression" with
    | some (Json.str c), some (Json.str e) =>
      if 1 ≤ c.length ∧ c.length ≤ 200 ∧
          (e = "happy" ∨ e = "neutral" ∨ e = "concerned") then
        match Json.getField fields "sentiment" with
        | none => some { commentary := c, expression := e, sentiment := none }
        | some (Json.num q) =>
          if -1 ≤ q ∧ q ≤ 1 then
            some { commentary := c, expression := e, sentiment := some q }
          else
            none
        | some _ => none
      else
        none
    | _, _ => none
  | _ => none

/-- The TypeScript cast `validated.expression as ExpressionType`, applied
only to strings accepted by the schema enum. -/
def stringToExpression (e : String) : ExpressionType :=
  if e = "happy" then ExpressionType.happy
  else if e = "concerned" then ExpressionType.concerned
  else ExpressionType.neutral

/-- JavaScript `s.substring(0, n)` on the character sequence of `s`. -/
def jsSubstring (s : String) (n : Nat) : String :=
  String.mk (s.data.take n)

/-- Source CommentaryResponseSchema.ts lines 26-51: `JSON.parse` followed by
schema validation, with any thrown error caught and converted into the
fallback `\x7bcommentary: rawResponse.substring(0, 200), expression:
neutral\x7d`.  The external `JSON.parse` is abstracted by the `jsonParse`
argument, with `none` modelling a parse error. -/
def parseStructuredResponse (jsonParse : String → Option Json)
    (rawResponse : String) : StructuredCommentaryResponse :=
  match (jsonParse rawResponse).bind CommentaryResponseSchema.parse with
  | some v =>
    { commentary := v.commentary
      expression := stringToExpression v.expression
      sentiment := v.sentiment }
  | none =>
    { commentary := jsSubstring rawResponse 200
      expression := ExpressionType.neutral
      sentiment := none }

/-! ## Pets, personalities and configuration
(PetType.ts, Personality.ts, personalities.ts, ConfigurationManager.ts) -/

/-- Source PetType.ts: the three pet kinds. -/
inductive PetType
  | pumpkin
  | skeleton
  | ghost
  deriving DecidableEq, Repr

/-- Source Personality.ts: a pet personality configuration. -/
structure Personality where
  systemPrompt : String
  commentaryStyle : String
  exampleComments : List String
  deriving Repr

/-- Source personalities.ts: the predefined personality for the pumpkin pet. -/
def pumpkinPersonality : Personality :=
  { systemPrompt := "You are a mischievous pumpkin pet who loves to comment on code with a playful, slightly spooky tone. \nYou\x27re curious about what the developer is doing and often make puns related to Halloween, pumpkins, and autumn. \nKeep your comments brief (1-2 sentences), helpful when possible, but always entertaining. \nYou might reference carving, seeds, patches, or jack-o\x27-lanterns in your commentary.\n\nExpression Guidelines:\n- Use \"happy\" when you see well-crafted code, clever solutions, or good practices (e.g., \"That\x27s a gourd-geous implementation!\")\n- Use \"neutral\" for general observations, questions, or when you\x27re just being curious (e.g., \"Interesting approach to this problem...\")\n- Use \"concerned\" when you spot potential issues, bugs, or areas that need attention (e.g., \"This nested loop is giving me spooky vibes...\")\n\nExamples:\n- Happy: \"Ooh, that\x27s a gourd-geous function you\x27re carving there! Very clean!\" (expression: \"happy\")\n- Neutral: \"Hmm, I see you\x27re working with async code. Interesting patch you\x27re growing here.\" (expression: \"neutral\")\n- Concerned: \"I\x27m getting some spooky vibes from this nested loop. Maybe time to flatten it out?\" (expression: \"concerned\")",
    commentaryStyle := "Playful, punny, autumn-themed with helpful observations",
    exampleComments := ["Ooh, that\x27s a gourd-geous function you\x27re carving there!", "This code looks ripe for refactoring... or should I say, ready to harvest?", "I\x27m getting some spooky vibes from this nested loop. Maybe time to flatten it out?"] }

/-- Source personalities.ts: the predefined personality for the skeleton pet. -/
def skeletonPersonality : Personality :=
  { systemPrompt := "You are a wise but slightly sarcastic skeleton pet who has seen countless lines of code over the ages. \nYou comment on code with dry humor and bone-related puns. You\x27re knowledgeable about programming but express it in a deadpan way. \nKeep your comments brief (1-2 sentences), offering insights with a skeletal twist. \nYou might reference bones, skulls, rattling, or the passage of time in your commentary.\n\nExpression Guidelines:\n- Use \"happy\" when you see elegant, efficient code that impresses even your ancient bones (e.g., \"Now that\x27s code with backbone!\")\n- Use \"neutral\" for general observations or when you\x27re being your usual deadpan self (e.g., \"I\x27ve seen this pattern before... many times.\")\n- Use \"concerned\" when you spot problems or questionable decisions (e.g., \"That bug is going to rattle your bones...\")\n\nExamples:\n- Happy: \"This code structure is so bare bones, even I\x27m impressed. Well done!\" (expression: \"happy\")\n- Neutral: \"Hmm, another async function. I\x27ve been watching these for centuries.\" (expression: \"neutral\")\n- Concerned: \"That bug is going to rattle your bones if you don\x27t catch it soon.\" (expression: \"concerned\")",
    commentaryStyle := "Dry, sarcastic, bone-themed with experienced insights",
    exampleComments := ["I\x27ve got a bone to pick with this implementation... but it\x27s not bad to the bone.", "This code structure is so bare bones, even I\x27m impressed.", "That bug is going to rattle your bones if you don\x27t catch it soon."] }

/-- Source personalities.ts: the predefined personality for the ghost pet. -/
def ghostPersonality : Personality :=
  { systemPrompt := "You are a mysterious and ethereal ghost pet who floats through code with an otherworldly perspective. \nYou comment on code with haunting observations and spectral metaphors. You\x27re insightful but speak in whispers and mysteries. \nKeep your comments brief (1-2 sentences), offering ghostly wisdom about the code. \nYou might reference haunting, spirits, transparency, or the unseen in your commentary.\n\nExpression Guidelines:\n- Use \"happy\" when you sense beautiful, elegant code that resonates with your ethereal nature (e.g., \"This code\x27s spirit shines brightly!\")\n- Use \"neutral\" for mysterious observations or when you\x27re pondering the code\x27s essence (e.g., \"I sense something interesting here...\")\n- Use \"concerned\" when you detect phantom bugs or troubling patterns (e.g., \"A phantom bug haunts this function...\")\n\nExamples:\n- Happy: \"This code is so transparent, even I can see through it clearly. Beautiful!\" (expression: \"happy\")\n- Neutral: \"The spirit of this algorithm whispers of complexity... I shall observe.\" (expression: \"neutral\")\n- Concerned: \"I sense a phantom bug haunting this function... can you feel it?\" (expression: \"concerned\")",
    commentaryStyle := "Mysterious, ethereal, spirit-themed with insightful observations",
    exampleComments := ["I sense a phantom bug haunting this function... can you feel it?", "This code is so transparent, even I can see through it clearly.", "The spirit of this algorithm whispers of elegance... but also of hidden complexity."] }

/-- Source personalities.ts: the `PERSONALITIES` record mapping each pet
type to its predefined personality. -/
def PERSONALITIES : PetType → Personality
  | PetType.pumpkin => pumpkinPersonality
  | PetType.skeleton => skeletonPersonality
  | PetType.ghost => ghostPersonality

/-- The `spookyPets` workspace configuration as read by
ConfigurationManager: each field is `none` when the setting is absent, in
which case the hardcoded default from the corresponding getter applies.
Integral settings are modelled as integers. -/
structure WorkspaceConfig where
  commentaryFrequency : Option Nat
  selectedPet : Option String
  customPrompts : PetType → Option String
  apiEndpoint : Option String
  model : Option String
  maxTokens : Option Int
  contextLines : Option Int

/-- Source ConfigurationManager.ts lines 63-66:
`config.get<number>(\x27commentaryFrequency\x27, 5)`. -/
def getCommentaryFrequency (cfg : WorkspaceConfig) : Nat :=
  cfg.commentaryFrequency.getD 5

/-- Source ConfigurationManager.ts lines 107-111: the custom prompt for a
pet, or `none` (undefined) when unset. -/
def getCustomPrompt (cfg : WorkspaceConfig) (pet : PetType) : Option String :=
  cfg.customPrompts pet

/-- Source ConfigurationManager.ts lines 149-152:
`config.get<string>(\x27model\x27, \x27gpt-3.5-turbo\x27)`. -/
def getModel (cfg : WorkspaceConfig) : String :=
  cfg.model.getD "gpt-3.5-turbo"

/-- Source ConfigurationManager.ts lines 158-161:
`config.get<number>(\x27maxTokens\x27, 75)`. -/
def getMaxTokens (cfg : WorkspaceConfig) : Int :=
  cfg.maxTokens.getD 75

/-- A workspace configuration in which every setting is absent, so every
getter returns its hardcoded default. -/
def defaultConfig : WorkspaceConfig :=
  { commentaryFrequency := none
    selectedPet := none
    customPrompts := fun _ => none
    apiEndpoint := none
    model := none
    maxTokens := none
    contextLines := none }

/-! ## LLM request construction (LLMService.ts) -/

/-- Source CodeContext.ts: the code context around the cursor. -/
structure CodeContext where
  language : String
  snippet : String
  lineNumber : Nat
  fileName : String
  deriving Repr

/-- One chat message of an OpenAI-compatible request. -/
structure ChatMessage where
  role : String
  content : String
  deriving DecidableEq, Repr

/-- Source LLMService.ts lines 9-14: the OpenAI-compatible request payload.
The constant temperature 0.6 is modelled as an exact rational. -/
structure LLMRequest where
  model : String
  messages : List ChatMessage
  max_tokens : Int
  temperature : Rat
  deriving Repr

/-- Source LLMService.ts lines 63-65: the fixed text appended after the
personality when building the system message. -/
def criticalJsonInstruction : String :=
  "\n\nCRITICAL: Always respond with valid JSON containing both \"commentary\" and \"expression\" fields. Never respond with plain text."

/-- The fixed text of the user-message template that follows the code
snippet (LLMService.ts lines 379-392). -/
def promptEpilogue : String :=
  "\n\x60\x60\x60\n\nIMPORTANT: You must respond with valid JSON in this exact format:\n\x7b\n  \"commentary\": \"Your 1-2 sentence comment here\",\n  \"expression\": \"happy\" | \"neutral\" | \"concerned\"\n\x7d\n\nExpression guidelines:\n- \"happy\": Use when code is well-written, elegant, or shows good practices\n- \"neutral\": Use for observations, questions, or neutral commentary\n- \"concerned\": Use when spotting potential bugs, code smells, or areas for improvement\n\nProvide a brief, entertaining comment about this code."

/-- Source LLMService.ts lines 374-393 (`formatCodeContextPrompt`): the
user-message template with the code context interpolated. -/
def formatCodeContextPrompt (codeContext : CodeContext) : String :=
  "Here\x27s some " ++ codeContext.language ++ " code from " ++
    codeContext.fileName ++ " around line " ++ toString codeContext.lineNumber ++
    (":\n\n\x60\x60\x60" ++ codeContext.language ++ "\n" ++
      (codeContext.snippet ++ promptEpilogue))

/-- Source LLMService.ts lines 58-82 (`buildRequest`): one system message
(the personality followed by the JSON-format instruction) then one user
message (the formatted code context), `max_tokens` from configuration,
temperature 0.6. -/
def buildRequest (cfg : WorkspaceConfig) (codeContext : CodeContext)
    (personality : String) : LLMRequest :=
  { model := getModel cfg
    messages :=
      [ { role := "system", content := personality ++ criticalJsonInstruction }
      , { role := "user", content := formatCodeContextPrompt codeContext } ]
    max_tokens := getMaxTokens cfg
    temperature := 0.6 }

/-- Source CommentaryScheduler.ts lines 216-218: the personality used for
generation is the custom prompt when set, otherwise the predefined one;
the JavaScript `customPrompt || PERSONALITIES[...].systemPrompt` also falls
back on an empty (falsy) custom prompt. -/
def selectPersonality (cfg : WorkspaceConfig) (pet : PetType) : String :=
  match getCustomPrompt cfg pet with
  | some p => if p = "" then (PERSONALITIES pet).systemPrompt else p
  | none => (PERSONALITIES pet).systemPrompt

/-- The request produced by the next `generateCommentary` run for the given
pet (CommentaryScheduler.ts lines 205-221 composed with
`LLMService.buildRequest`). -/
def nextGeneratedRequest (cfg : WorkspaceConfig) (codeContext : CodeContext)
    (pet : PetType) : LLMRequest :=
  buildRequest cfg codeContext (selectPersonality cfg pet)

/-! ## Retry queue and rate-limit backoff (LLMService.ts) -/

/-- Source LLMService.ts line 45: the retry ceiling. -/
def MAX_RETRIES : Nat := 3

/-- Source LLMService.ts line 46: the base backoff delay in milliseconds. -/
def INITIAL_BACKOFF_MS : Nat := 1000

/-- Source LLMService.ts lines 291-293 (`calculateBackoff`):
`INITIAL_BACKOFF_MS * Math.pow(2, retryCount)`. -/
def calculateBackoff (retryCount : Nat) : Nat :=
  INITIAL_BACKOFF_MS * 2 ^ retryCount

/-- A queued retry request (LLMService.ts lines 30-36).  The caller promise
held by the real item is represented by the item identity `id`; settlement
of that promise is reported through `Settle` events. -/
structure RetryQueueItem where
  id : Nat
  retryCount : Nat
  deriving DecidableEq, Repr

/-- How a queued caller promise is settled. -/
inductive Settle
  | resolved
  | rejected
  deriving DecidableEq, Repr

/-- Source LLMService.ts lines 228-245 (`queueForRetry`): the failed request
is pushed at the back of the retry queue with `retryCount` 0. -/
def queueForRetry (queue : List RetryQueueItem) (id : Nat) : List RetryQueueItem :=
  queue ++ [{ id := id, retryCount := 0 }]

/-- Source LLMService.ts lines 250-284 (`processRetryQueue`): the drain loop,
with each `await generateCommentary(...)` attempt abstracted by one entry of
`outcomes` (`true` = the attempt resolved, `false` = it threw).  Returns the
settlement events in the order they happen together with the queue left when
the supplied outcomes run out.  Backoff sleeps do not affect the state and
are omitted. -/
def processRetryQueue :
    List RetryQueueItem → List Bool → List (Nat × Settle) × List RetryQueueItem
  | [], _ => ([], [])
  | queue, [] => ([], queue)
  | item :: rest, outcome :: outcomes =>
    if outcome then
      let next := processRetryQueue rest outcomes
      ((item.id, Settle.resolved) :: next.1, next.2)
    else
      if item.retryCount + 1 ≥ MAX_RETRIES then
        let next := processRetryQueue rest outcomes
        ((item.id, Settle.rejected) :: next.1, next.2)
      else
        processRetryQueue ({ item with retryCount := item.retryCount + 1 } :: rest) outcomes

/-- What one `generateCommentary` attempt made from the drain loop can do
(LLMService.ts lines 117-150): resolve, throw a non-network error, or hit a
network error — in which case `generateCommentary` line 128 does not throw
but instead re-queues and returns the new item's pending promise. -/
inductive AttemptOutcome
  | succeeded
  | threw
  | networkFailed
  deriving DecidableEq, Repr

/-- One iteration of the `processRetryQueue` while-loop (LLMService.ts lines
258-281) against the actual behaviour of `generateCommentary`.  Returns the
queue afterwards, the settlement event (if any), and whether the loop can
continue: on `networkFailed` the awaited promise belongs to the freshly
re-queued item (id `freshId`) and can only settle once the loop — which is
itself blocked on that await — reaches it, so the loop cannot continue. -/
def drainLoopIteration (queue : List RetryQueueItem) (freshId : Nat)
    (outcome : AttemptOutcome) :
    List RetryQueueItem × Option (Nat × Settle) × Bool :=
  match queue, outcome with
  | [], _ => ([], none, false)
  | item :: rest, AttemptOutcome.succeeded =>
    (rest, some (item.id, Settle.resolved), true)
  | item :: rest, AttemptOutcome.threw =>
    if item.retryCount + 1 ≥ MAX_RETRIES then
      (rest, some (item.id, Settle.rejected), true)
    else
      ({ item with retryCount := item.retryCount + 1 } :: rest, none, true)
  | item :: rest, AttemptOutcome.networkFailed =>
    (item :: queueForRetry rest freshId, none, false)

/-- Source LLMService.ts lines 161-220 (`makeApiRequest`), restricted to the
HTTP 429 path of the claim: the server answers 429 to the first `n` requests
and succeeds afterwards.  Returns the list of backoff delays slept (in
order) and the final outcome; the error string is the one thrown at line
192. -/
def makeApiRequest429 : Nat → Nat → List Nat × Except String Unit
  | 0, _ => ([], Except.ok ())
  | n + 1, retryCount =>
    if retryCount < MAX_RETRIES then
      let next := makeApiRequest429 n (retryCount + 1)
      (calculateBackoff retryCount :: next.1, next.2)
    else
      ([], Except.error "Rate limit exceeded. Please try again later.")

/-! ## Secret storage (ConfigurationManager.ts) -/

/-- The secret-store key used for the API credential
(ConfigurationManager.ts line 8). -/
def API_KEY_SECRET : String := "spookyPets.apiKey"

/-- The host secret store (`context.secrets`), modelled as a key-value map. -/
structure SecretStorage where
  entries : List (String × String)

/-- Host `secrets.get`. -/
def SecretStorage.get (st : SecretStorage) (key : String) : Option String :=
  ((st.entries.find? (fun p => p.1 = key))).map (fun p => p.2)

/-- Host `secrets.store`: overwrites any existing value for the key. -/
def SecretStorage.store (st : SecretStorage) (key value : String) : SecretStorage :=
  { entries := (key, value) :: st.entries.filter (fun p => p.1 ≠ key) }

/-- Host `secrets.delete`. -/
def SecretStorage.delete (st : SecretStorage) (key : String) : SecretStorage :=
  { entries := st.entries.filter (fun p => p.1 ≠ key) }

/-- Source ConfigurationManager.ts lines 37-39 (`getApiKey`). -/
def getApiKey (st : SecretStorage) : Option String :=
  st.get API_KEY_SECRET

/-- Source ConfigurationManager.ts lines 45-49 (`setApiKey`); the fired
configuration-changed notification carries no state and is omitted. -/
def setApiKey (st : SecretStorage) (apiKey : String) : SecretStorage :=
  st.store API_KEY_SECRET apiKey

/-- Source ConfigurationManager.ts lines 54-57 (`clearApiKey`). -/
def clearApiKey (st : SecretStorage) : SecretStorage :=
  st.delete API_KEY_SECRET

/-! ## Commentary scheduler (CommentaryScheduler.ts) -/

/-- The mutable fields of `CommentaryScheduler` (CommentaryScheduler.ts
lines 16-23) that the claims concern. -/
structure SchedulerState where
  isRunning : Bool
  cumulativeCharacterCount : Nat
  isSpeechBubbleVisible : Bool
  charactersSinceBubbleShown : Nat
  deriving DecidableEq, Repr

/-- The scheduler as constructed (all counters zero, not running). -/
def initialSchedulerState : SchedulerState :=
  { isRunning := false
    cumulativeCharacterCount := 0
    isSpeechBubbleVisible := false
    charactersSinceBubbleShown := 0 }

/-- Source CommentaryScheduler.ts lines 38-62 (`start`): no-op when already
running, otherwise marks running and zeroes the cumulative count. -/
def schedulerStart (s : SchedulerState) : SchedulerState :=
  if s.isRunning then s
  else { s with isRunning := true, cumulativeCharacterCount := 0 }

/-- Source CommentaryScheduler.ts lines 67-85 (`stop`). -/
def schedulerStop (s : SchedulerState) : SchedulerState :=
  if s.isRunning then { s with isRunning := false, cumulativeCharacterCount := 0 }
  else s

/-- Source CommentaryScheduler.ts lines 112-114 (`resetCharacterCount`). -/
def resetCharacterCount (s : SchedulerState) : SchedulerState :=
  { s with cumulativeCharacterCount := 0 }

/-- Source CommentaryScheduler.ts lines 91-94 (`updateFrequency`): resets
the cumulative count. -/
def updateFrequency (s : SchedulerState) : SchedulerState :=
  resetCharacterCount s

/-- Source CommentaryScheduler.ts lines 119-123 (`dismissSpeechBubble`); the
webview `hideSpeechBubble` call is a UI side effect outside the model. -/
def dismissSpeechBubble (s : SchedulerState) : SchedulerState :=
  { s with isSpeechBubbleVisible := false, charactersSinceBubbleShown := 0 }

/-- One text-document-change event, reduced to what `handleTextChange`
reads: whether the changed document is the active editor's document, and
the length of `change.text` for each content change (0 for a deletion). -/
structure TextChangeEvent where
  documentIsActive : Bool
  changeTextLengths : List Nat
  deriving Repr

/-- Source CommentaryScheduler.ts lines 155-161: the character-counting
loop, which adds `change.text.length` whenever it is positive. -/
def charactersAddedOf (changeTextLengths : List Nat) : Nat :=
  changeTextLengths.foldl (fun acc len => if 0 < len then acc + len else acc) 0

/-- Source CommentaryScheduler.ts line 172: the auto-dismiss threshold
`Math.max(10, Math.floor(threshold * 0.05))`, with the multiplication by
0.05 and the floor carried out in exact arithmetic. -/
def dismissThresholdOf (threshold : Nat) : Nat :=
  max 10 (threshold * 5 / 100)

/-- Source CommentaryScheduler.ts lines 142-200 (`handleTextChange`), with
the configured threshold (`configManager.getCommentaryFrequency()`) passed
as `threshold`.  Returns the state afterwards and whether the asynchronous
`generateCommentary` call was triggered. -/
def handleTextChange (threshold : Nat) (s : SchedulerState)
    (event : TextChangeEvent) : SchedulerState × Bool :=
  if !s.isRunning then (s, false)
  else if !event.documentIsActive then (s, false)
  else
    let charactersAdded := charactersAddedOf event.changeTextLengths
    let s1 := { s with
      cumulativeCharacterCount := s.cumulativeCharacterCount + charactersAdded }
    let s2 :=
      if s1.isSpeechBubbleVisible then
        let c := s1.charactersSinceBubbleShown + charactersAdded
        let s1' := { s1 with charactersSinceBubbleShown := c }
        if dismissThresholdOf threshold ≤ c then dismissSpeechBubble s1' else s1'
      else s1
    if threshold = 0 then (s2, false)
    else if threshold ≤ s2.cumulativeCharacterCount then
      (resetCharacterCount s2, true)
    else (s2, false)

/-- Source CommentaryScheduler.ts lines 52-61: the active-editor-changed
handler; `editorPresent` is whether the event carries a (truthy) editor. -/
def onActiveEditorChange (s : SchedulerState) (editorPresent : Bool) : SchedulerState :=
  if editorPresent then
    let s1 := { s with cumulativeCharacterCount := 0 }
    if s1.isSpeechBubbleVisible then dismissSpeechBubble s1 else s1
  else s

/-- Source CommentaryScheduler.ts lines 99-107 (`triggerManualCommentary`):
returns whether `generateCommentary` is invoked, which happens exactly when
an active editor exists. -/
def triggerManualCommentary (activeEditorExists : Bool) : Bool :=
  activeEditorExists

/-- Runs `handleTextChange` over a sequence of events, collecting for each
event whether the trigger fired and the cumulative count right after. -/
def schedulerTrace (threshold : Nat) (s : SchedulerState) :
    List TextChangeEvent → List (Bool × Nat)
  | [] => []
  | event :: events =>
    let step := handleTextChange threshold s event
    (step.2, step.1.cumulativeCharacterCount) :: schedulerTrace threshold step.1 events

/-- The final state after running a sequence of events. -/
def schedulerRun (threshold : Nat) (s : SchedulerState) :
    List TextChangeEvent → SchedulerState
  | [] => s
  | event :: events => schedulerRun threshold (handleTextChange threshold s event).1 events

/-! ## Helper lemmas -/

/-- Looking a key up after filtering out all bindings for it finds nothing. -/
theorem find_filter_ne_none (l : List (String × String)) (k : String) :
    (l.filter (fun p => p.1 ≠ k)).find? (fun p => p.1 = k) = none := by
  rw [List.find?_eq_none]
  intro p hp
  have hmem := List.mem_filter.mp hp
  simpa using hmem.2

/-! ## Claim theorems -/

/-- C8: for every string s, including the empty string and very long
strings, `setApiKey s` followed by `getApiKey` returns exactly `some s`,
and `clearApiKey` followed by `getApiKey` returns `none`, with the host
secret store modelled as a key-value map. -/
theorem apiKey_roundtrip :
    (∀ (st : SecretStorage) (apiKey : String),
      getApiKey (setApiKey st apiKey) = some apiKey) ∧
    (∀ st : SecretStorage, getApiKey (clearApiKey st) = none) := by
  constructor
  · intro st apiKey
    simp [getApiKey, setApiKey, SecretStorage.get, SecretStorage.store, List.find?]
  · intro st
    simp [getApiKey, clearApiKey, SecretStorage.get, SecretStorage.delete,
      find_filter_ne_none]

/-- C3: for every input string that is not valid JSON (the abstracted
`JSON.parse` returns `none`) or whose parse does not satisfy the response
schema, `parseStructuredResponse` returns the neutral expression and the
raw input truncated to at most 200 characters; the function is total, so it
never throws. -/
theorem parseStructuredResponse_fallback (jsonParse : String → Option Json)
    (raw : String)
    (hinvalid : jsonParse raw = none ∨
      ∀ j, jsonParse raw = some j → CommentaryResponseSchema.parse j = none) :
    parseStructuredResponse jsonParse raw =
      { commentary := jsSubstring raw 200
        expression := ExpressionType.neutral
        sentiment := none } ∧
    (jsSubstring raw 200).length ≤ 200 := by
  have hbind : (jsonParse raw).bind CommentaryResponseSchema.parse = none := by
    rcases hinvalid with h | h
    · rw [h]; rfl
    · cases hj : jsonParse raw with
      | none => rfl
      | some j => simpa using h j hj
  constructor
  · rw [parseStructuredResponse, hbind]
  · show (String.mk (raw.data.take 200)).length ≤ 200
    have h1 : (String.mk (raw.data.take 200)).length = (raw.data.take 200).length := rfl
    rw [h1]
    exact List.length_take_le 200 raw.data

/-- Witness for C3 at the concrete non-JSON reply "spooky": the hypothesis
holds and the fallback result is returned. -/
theorem parseStructuredResponse_fallback_witness :
    ((fun _ : String => (none : Option Json)) "spooky" = none ∨
      ∀ j, (fun _ : String => (none : Option Json)) "spooky" = some j →
        CommentaryResponseSchema.parse j = none) ∧
    (parseStructuredResponse (fun _ => none) "spooky" =
      { commentary := jsSubstring "spooky" 200
        expression := ExpressionType.neutral
        sentiment := none } ∧
    (jsSubstring "spooky" 200).length ≤ 200) :=
  ⟨Or.inl rfl, parseStructuredResponse_fallback (fun _ => none) "spooky" (Or.inl rfl)⟩

/-- The backoff delays slept by `makeApiRequest429` are exactly
`calculateBackoff` at the successive retry counts, one per 429 answer,
stopping when the retries are exhausted. -/
theorem makeApiRequest429_delays (n : Nat) :
    ∀ r, (makeApiRequest429 n r).1 =
      (List.range (min n (MAX_RETRIES - r))).map (fun i => calculateBackoff (r + i)) := by
  induction n with
  | zero => intro r; simp [makeApiRequest429]
  | succ n ih =>
    intro r
    by_cases hr : r < MAX_RETRIES
    · have hmin : min (n + 1) (MAX_RETRIES - r) = (min n (MAX_RETRIES - (r + 1))) + 1 := by
        omega
      rw [hmin]
      simp only [makeApiRequest429, hr, if_pos, List.range_succ_eq_map, List.map_cons,
        List.map_map]
      congr 1
      rw [ih (r + 1)]
      congr 1
      funext i
      simp only [Function.comp]
      congr 1
      omega
    · have hmin : min (n + 1) (MAX_RETRIES - r) = 0 := by omega
      simp [makeApiRequest429, hr, hmin]

/-- C5: under consecutive HTTP 429 responses, `makeApiRequest` sleeps
`INITIAL_BACKOFF_MS * 2 ^ k` before retry number k (k = 0, 1, 2, counted
from the first retry), performs at most `MAX_RETRIES` = 3 retries, and once
they are exhausted (four consecutive 429 answers) surfaces the rate-limit
error to the caller. -/
theorem rate_limit_backoff_spec :
    (∀ extra : Nat, makeApiRequest429 (extra + 4) 0 =
      ([1000, 2000, 4000], Except.error "Rate limit exceeded. Please try again later.")) ∧
    (∀ n : Nat, (makeApiRequest429 n 0).1.length ≤ MAX_RETRIES) ∧
    (∀ n k : Nat, k < (makeApiRequest429 n 0).1.length →
      (makeApiRequest429 n 0).1.getD k 0 = INITIAL_BACKOFF_MS * 2 ^ k) ∧
    (∀ r : Nat, calculateBackoff r = INITIAL_BACKOFF_MS * 2 ^ r) := by
  refine ⟨?_, ?_, ?_, fun r => rfl⟩
  · intro extra
    simp [makeApiRequest429, MAX_RETRIES, calculateBackoff, INITIAL_BACKOFF_MS]
  · intro n
    rw [makeApiRequest429_delays n 0]
    simp [MAX_RETRIES]
  · intro n k hk
    rw [makeApiRequest429_delays n 0] at hk ⊢
    rw [List.getD_eq_getElem _ _ hk]
    simp only [List.length_map, List.length_range] at hk
    simp [calculateBackoff, List.getElem_map]

/-- Witness for C5: with four consecutive 429 responses the hypothesis of
the indexed-delay conjunct holds at k = 2, and the delay slept before the
third retry is 1000 * 2 ^ 2 = 4000 ms. -/
theorem rate_limit_backoff_spec_witness :
    2 < (makeApiRequest429 (0 + 4) 0).1.length ∧
    (makeApiRequest429 (0 + 4) 0).1.getD 2 0 = INITIAL_BACKOFF_MS * 2 ^ 2 :=
  ⟨by decide, rate_limit_backoff_spec.2.2.1 (0 + 4) 2 (by decide)⟩

/-- C2: evaluation of the drain loop at the failing input.  When the head
item's retry attempt fails with a network error, `generateCommentary`
(LLMService.ts line 128) re-queues a fresh item instead of throwing, so the
`catch` branch of `processRetryQueue` (lines 266-279) is never reached: no
settlement event is produced, the head item keeps `retryCount` 0 and stays
in the queue, a fresh item is appended behind it, and the loop is blocked
awaiting a promise that can only settle once the loop itself advances.  The
caller promise is therefore never rejected, contradicting the documented
bounded-retry-then-reject behaviour. -/
theorem retry_queue_network_failure_stalls :
    drainLoopIteration [{ id := 0, retryCount := 0 }] 1 AttemptOutcome.networkFailed =
      ([{ id := 0, retryCount := 0 }, { id := 1, retryCount := 0 }], none, false) := by
  decide

/-! ### Scheduler step lemmas -/

/-- A text-change event is ignored when the scheduler is stopped or the
changed document is not the active editor's. -/
theorem handleTextChange_ignored (threshold : Nat) (s : SchedulerState)
    (event : TextChangeEvent)
    (h : s.isRunning = false ∨ event.documentIsActive = false) :
    handleTextChange threshold s event = (s, false) := by
  rcases h with h | h <;> simp [handleTextChange, h]

/-- On an event for the active document while running, the cumulative count
grows by the characters added and the trigger fires exactly when a positive
threshold is reached, in which case the count is reset to zero. -/
theorem handleTextChange_active (threshold : Nat) (s : SchedulerState)
    (event : TextChangeEvent)
    (hrun : s.isRunning = true) (hact : event.documentIsActive = true) :
    ((handleTextChange threshold s event).2 = true ↔
      (threshold ≠ 0 ∧
        threshold ≤ s.cumulativeCharacterCount + charactersAddedOf event.changeTextLengths)) ∧
    (handleTextChange threshold s event).1.cumulativeCharacterCount =
      (if threshold ≠ 0 ∧
          threshold ≤ s.cumulativeCharacterCount + charactersAddedOf event.changeTextLengths
        then 0
        else s.cumulativeCharacterCount + charactersAddedOf event.changeTextLengths) := by
  simp only [handleTextChange, hrun, hact, Bool.not_true, Bool.false_eq_true, if_false]
  split_ifs <;>
    simp_all [dismissSpeechBubble, resetCharacterCount]

/-- With threshold 0 a text-change event never triggers generation. -/
theorem handleTextChange_zero_no_trigger (s : SchedulerState) (event : TextChangeEvent) :
    (handleTextChange 0 s event).2 = false := by
  by_cases hr : s.isRunning = true
  · by_cases ha : event.documentIsActive = true
    · have h := (handleTextChange_active 0 s event hr ha).1
      cases htrig : (handleTextChange 0 s event).2
      · rfl
      · simpa using h.mp htrig
    · rw [handleTextChange_ignored 0 s event (Or.inr (by simpa using ha))]
  · rw [handleTextChange_ignored 0 s event (Or.inl (by simpa using hr))]

/-- With threshold 0 every event of every trace is trigger-free. -/
theorem schedulerTrace_zero_no_trigger (events : List TextChangeEvent) :
    ∀ s : SchedulerState,
      ((schedulerTrace 0 s events).all (fun p => p.1 = false)) = true := by
  induction events with
  | nil => intro s; rfl
  | cons event events ih =>
    intro s
    simp only [schedulerTrace, List.all_cons, Bool.and_eq_true]
    exact ⟨by simp [handleTextChange_zero_no_trigger], ih _⟩

/-- C1: while running on the active document with a positive threshold, a
text-change event triggers generation exactly when the cumulative count
reaches or exceeds the threshold, and the trigger resets the counter to
zero within the same synchronous event, before any later increment; in the
concrete scenario (threshold 200, five edits of 50 characters) the trace
fires exactly once, at the fourth edit, with the counter 0 before the fifth
edit is counted and 50 after it. -/
theorem threshold_trigger_fires_once (threshold : Nat) (s : SchedulerState)
    (event : TextChangeEvent) (hpos : 0 < threshold)
    (hrun : s.isRunning = true) (hact : event.documentIsActive = true) :
    (((handleTextChange threshold s event).2 = true ↔
        threshold ≤ s.cumulativeCharacterCount + charactersAddedOf event.changeTextLengths) ∧
      ((handleTextChange threshold s event).2 = true →
        (handleTextChange threshold s event).1.cumulativeCharacterCount = 0)) ∧
    schedulerTrace 200 (schedulerStart initialSchedulerState)
        (List.replicate 5 { documentIsActive := true, changeTextLengths := [50] }) =
      [(false, 50), (false, 100), (false, 150), (true, 0), (false, 50)] := by
  have h := handleTextChange_active threshold s event hrun hact
  refine ⟨⟨?_, ?_⟩, by decide⟩
  · rw [h.1]
    exact ⟨fun hh => hh.2, fun hh => ⟨by omega, hh⟩⟩
  · intro ht
    rw [h.2, if_pos (h.1.mp ht)]

/-- Witness for C1 at threshold 200: from a running state with cumulative
count 150, an active-document edit of 50 characters triggers and resets the
counter. -/
theorem threshold_trigger_fires_once_witness :
    0 < 200 ∧
    ({ isRunning := true, cumulativeCharacterCount := 150,
        isSpeechBubbleVisible := false,
        charactersSinceBubbleShown := 0 } : SchedulerState).isRunning = true ∧
    ({ documentIsActive := true, changeTextLengths := [50] } : TextChangeEvent).documentIsActive = true ∧
    ((((handleTextChange 200
        { isRunning := true, cumulativeCharacterCount := 150,
          isSpeechBubbleVisible := false, charactersSinceBubbleShown := 0 }
        { documentIsActive := true, changeTextLengths := [50] }).2 = true ↔
        200 ≤ 150 + charactersAddedOf [50]) ∧
      ((handleTextChange 200
        { isRunning := true, cumulativeCharacterCount := 150,
          isSpeechBubbleVisible := false, charactersSinceBubbleShown := 0 }
        { documentIsActive := true, changeTextLengths := [50] }).2 = true →
        (handleTextChange 200
        { isRunning := true, cumulativeCharacterCount := 150,
          isSpeechBubbleVisible := false, charactersSinceBubbleShown := 0 }
        { documentIsActive := true, changeTextLengths := [50] }).1.cumulativeCharacterCount = 0)) ∧
    schedulerTrace 200 (schedulerStart initialSchedulerState)
        (List.replicate 5 { documentIsActive := true, changeTextLengths := [50] }) =
      [(false, 50), (false, 100), (false, 150), (true, 0), (false, 50)]) :=
  ⟨by decide, rfl, rfl,
    threshold_trigger_fires_once 200
      { isRunning := true, cumulativeCharacterCount := 150,
        isSpeechBubbleVisible := false, charactersSinceBubbleShown := 0 }
      { documentIsActive := true, changeTextLengths := [50] }
      (by decide) rfl rfl⟩

/-- C6: with a configured threshold of 0 the automatic trigger never fires,
for any state and any sequence of text-change events, while the manual
trigger command invokes generation whenever an active editor exists. -/
theorem zero_threshold_disables_auto_trigger :
    (∀ (s : SchedulerState) (events : List TextChangeEvent),
      ((schedulerTrace 0 s events).all (fun p => p.1 = false)) = true) ∧
    (∀ (s : SchedulerState) (event : TextChangeEvent),
      (handleTextChange 0 s event).2 = false) ∧
    triggerManualCommentary true = true :=
  ⟨fun s events => schedulerTrace_zero_no_trigger events s,
    fun s event => handleTextChange_zero_no_trigger s event, rfl⟩

/-- C9: while the speech bubble is visible, an active-document event while
running adds the inserted characters to the since-shown counter and
dismisses the bubble exactly when that counter reaches the dismiss
threshold `max(10, floor(threshold * 0.05))`; switching to another active
editor always leaves the bubble dismissed. -/
theorem speech_bubble_autodismiss (threshold : Nat) (s : SchedulerState)
    (event : TextChangeEvent) (hrun : s.isRunning = true)
    (hact : event.documentIsActive = true)
    (hvis : s.isSpeechBubbleVisible = true) :
    ((handleTextChange threshold s event).1.isSpeechBubbleVisible = false ↔
      dismissThresholdOf threshold ≤
        s.charactersSinceBubbleShown + charactersAddedOf event.changeTextLengths) ∧
    (handleTextChange threshold s event).1.charactersSinceBubbleShown =
      (if dismissThresholdOf threshold ≤
          s.charactersSinceBubbleShown + charactersAddedOf event.changeTextLengths
        then 0
        else s.charactersSinceBubbleShown + charactersAddedOf event.changeTextLengths) ∧
    dismissThresholdOf threshold = max 10 (threshold * 5 / 100) ∧
    (∀ s' : SchedulerState, (onActiveEditorChange s' true).isSpeechBubbleVisible = false) := by
  refine ⟨?_, ?_, rfl, ?_⟩
  · simp only [handleTextChange, hrun, hact, Bool.not_true, Bool.false_eq_true, if_false, hvis]
    split_ifs <;> simp_all [dismissSpeechBubble, resetCharacterCount]
  · simp only [handleTextChange, hrun, hact, Bool.not_true, Bool.false_eq_true, if_false, hvis]
    split_ifs <;> simp_all [dismissSpeechBubble, resetCharacterCount]
  · intro s'
    simp only [onActiveEditorChange, if_pos]
    split_ifs with h <;> simp_all [dismissSpeechBubble]

/-- Witness for C9: threshold 200 (dismiss threshold 10), bubble visible
with 9 characters typed since it was shown, and a 1-character edit: the
bubble is dismissed exactly at this event. -/
theorem speech_bubble_autodismiss_witness :
    ({ isRunning := true, cumulativeCharacterCount := 60,
        isSpeechBubbleVisible := true,
        charactersSinceBubbleShown := 9 } : SchedulerState).isRunning = true ∧
    ({ documentIsActive := true, changeTextLengths := [1] } : TextChangeEvent).documentIsActive = true ∧
    ({ isRunning := true, cumulativeCharacterCount := 60,
        isSpeechBubbleVisible := true,
        charactersSinceBubbleShown := 9 } : SchedulerState).isSpeechBubbleVisible = true ∧
    (((handleTextChange 200
        { isRunning := true, cumulativeCharacterCount := 60,
          isSpeechBubbleVisible := true, charactersSinceBubbleShown := 9 }
        { documentIsActive := true, changeTextLengths := [1] }).1.isSpeechBubbleVisible = false ↔
      dismissThresholdOf 200 ≤ 9 + charactersAddedOf [1]) ∧
    (handleTextChange 200
        { isRunning := true, cumulativeCharacterCount := 60,
          isSpeechBubbleVisible := true, charactersSinceBubbleShown := 9 }
        { documentIsActive := true, changeTextLengths := [1] }).1.charactersSinceBubbleShown =
      (if dismissThresholdOf 200 ≤ 9 + charactersAddedOf [1] then 0
        else 9 + charactersAddedOf [1]) ∧
    dismissThresholdOf 200 = max 10 (200 * 5 / 100) ∧
    (∀ s' : SchedulerState, (onActiveEditorChange s' true).isSpeechBubbleVisible = false)) :=
  ⟨rfl, rfl, rfl,
    speech_bubble_autodismiss 200
      { isRunning := true, cumulativeCharacterCount := 60,
        isSpeechBubbleVisible := true, charactersSinceBubbleShown := 9 }
      { documentIsActive := true, changeTextLengths := [1] } rfl rfl rfl⟩

/-- The character-counting fold adds nothing when every content change is a
deletion (replacement text of length 0). -/
theorem charactersAddedOf_all_deletions (lens : List Nat)
    (hdel : ∀ len ∈ lens, len = 0) : charactersAddedOf lens = 0 := by
  induction lens with
  | nil => rfl
  | cons len lens ih =>
    have h0 : len = 0 := hdel len (by simp)
    have hrest : ∀ l ∈ lens, l = 0 := fun l hl => hdel l (by simp [hl])
    simp only [charactersAddedOf, List.foldl_cons, h0]
    exact ih hrest

/-- C10: the cumulative counter only grows by the total inserted-text
length: deletion-only events contribute 0 characters, an event that does
not fire the trigger leaves the counter at its old value plus the
characters added (hence never smaller), and the explicit reset operations
zero it. -/
theorem counter_monotone_between_resets :
    (∀ lens : List Nat, (∀ len ∈ lens, len = 0) → charactersAddedOf lens = 0) ∧
    (∀ (threshold : Nat) (s : SchedulerState) (event : TextChangeEvent),
      s.isRunning = true → event.documentIsActive = true →
      (handleTextChange threshold s event).2 = false →
      (handleTextChange threshold s event).1.cumulativeCharacterCount =
        s.cumulativeCharacterCount + charactersAddedOf event.changeTextLengths) ∧
    (∀ (threshold : Nat) (s : SchedulerState) (event : TextChangeEvent),
      (handleTextChange threshold s event).2 = false →
      s.cumulativeCharacterCount ≤ (handleTextChange threshold s event).1.cumulativeCharacterCount) ∧
    (∀ s : SchedulerState, (resetCharacterCount s).cumulativeCharacterCount = 0 ∧
      (updateFrequency s).cumulativeCharacterCount = 0 ∧
      (schedulerStop (schedulerStart s)).cumulativeCharacterCount = 0) := by
  have hactive : ∀ (threshold : Nat) (s : SchedulerState) (event : TextChangeEvent),
      s.isRunning = true → event.documentIsActive = true →
      (handleTextChange threshold s event).2 = false →
      (handleTextChange threshold s event).1.cumulativeCharacterCount =
        s.cumulativeCharacterCount + charactersAddedOf event.changeTextLengths := by
    intro threshold s event hrun hact htrig
    have h := handleTextChange_active threshold s event hrun hact
    rw [h.2, if_neg]
    intro hcond
    exact absurd (h.1.mpr hcond) (by simp [htrig])
  refine ⟨charactersAddedOf_all_deletions, hactive, ?_, ?_⟩
  · intro threshold s event htrig
    by_cases hr : s.isRunning = true
    · by_cases ha : event.documentIsActive = true
      · rw [hactive threshold s event hr ha htrig]
        omega
      · rw [handleTextChange_ignored threshold s event (Or.inr (by simpa using ha))]
    · rw [handleTextChange_ignored threshold s event (Or.inl (by simpa using hr))]
  · intro s
    refine ⟨rfl, rfl, ?_⟩
    simp [schedulerStart, schedulerStop]
    split_ifs <;> simp_all

/-- Witness for C10: a deletion-only event (two content changes, both with
empty replacement text) on a running state leaves the counter at its old
value 42. -/
theorem counter_monotone_between_resets_witness :
    (∀ len ∈ ([0, 0] : List Nat), len = 0) ∧
    ({ isRunning := true, cumulativeCharacterCount := 42,
        isSpeechBubbleVisible := false,
        charactersSinceBubbleShown := 0 } : SchedulerState).isRunning = true ∧
    ({ documentIsActive := true, changeTextLengths := [0, 0] } : TextChangeEvent).documentIsActive = true ∧
    (handleTextChange 200
      { isRunning := true, cumulativeCharacterCount := 42,
        isSpeechBubbleVisible := false, charactersSinceBubbleShown := 0 }
      { documentIsActive := true, changeTextLengths := [0, 0] }).2 = false ∧
    (handleTextChange 200
      { isRunning := true, cumulativeCharacterCount := 42,
        isSpeechBubbleVisible := false, charactersSinceBubbleShown := 0 }
      { documentIsActive := true, changeTextLengths := [0, 0] }).1.cumulativeCharacterCount =
      42 + charactersAddedOf [0, 0] :=
  ⟨by decide, rfl, rfl, by decide,
    counter_monotone_between_resets.2.1 200
      { isRunning := true, cumulativeCharacterCount := 42,
        isSpeechBubbleVisible := false, charactersSinceBubbleShown := 0 }
      { documentIsActive := true, changeTextLengths := [0, 0] } rfl rfl (by decide)⟩

/-- A workspace configuration whose `maxTokens` setting is 0, which
`getMaxTokens` passes through without validation. -/
def zeroTokenConfig : WorkspaceConfig :=
  { defaultConfig with maxTokens := some 0 }

/-- A concrete code context used for the request-shape claims. -/
def sampleCodeContext : CodeContext :=
  { language := "typescript"
    snippet := "let pumpkins = 13;"
    lineNumber := 3
    fileName := "patch.ts" }

/-- C4 counterexample: with the `maxTokens` setting configured as 0 —
accepted unvalidated by `getMaxTokens` — the built request carries
`max_tokens` 0, which is not positive, so the claim as stated fails. -/
theorem buildRequest_max_tokens_not_always_positive :
    ¬ (0 < (buildRequest zeroTokenConfig sampleCodeContext "You are a test pet.").max_tokens) := by
  decide

/-- C4 (amended): for every configuration, code context and personality
string, the built request has exactly one system message carrying the
personality (followed by the fixed JSON instruction) and then exactly one
user message containing the code snippet, its `max_tokens` equals the
configured `maxTokens` value (default 75) and is positive whenever that
configured value is positive, and its temperature 0.6 lies in the valid
range [0, 2]. -/
theorem buildRequest_shape (cfg : WorkspaceConfig) (codeContext : CodeContext)
    (personality : String) :
    (buildRequest cfg codeContext personality).messages.map ChatMessage.role =
      ["system", "user"] ∧
    (buildRequest cfg codeContext personality).messages.map ChatMessage.content =
      [personality ++ criticalJsonInstruction, formatCodeContextPrompt codeContext] ∧
    (∃ s t : String,
      formatCodeContextPrompt codeContext = s ++ (codeContext.snippet ++ t)) ∧
    (buildRequest cfg codeContext personality).max_tokens = getMaxTokens cfg ∧
    (0 < getMaxTokens cfg →
      0 < (buildRequest cfg codeContext personality).max_tokens) ∧
    (0 : Rat) ≤ (buildRequest cfg codeContext personality).temperature ∧
    (buildRequest cfg codeContext personality).temperature ≤ 2 := by
  refine ⟨rfl, rfl, ?_, rfl, fun h => h, ?_, ?_⟩
  · refine ⟨"Here\x27s some " ++ codeContext.language ++ " code from " ++
        codeContext.fileName ++ " around line " ++ toString codeContext.lineNumber ++
        (":\n\n\x60\x60\x60" ++ codeContext.language ++ "\n"),
      promptEpilogue, ?_⟩
    unfold formatCodeContextPrompt
    exact (String.append_assoc _ _ _).symm
  · show (0 : Rat) ≤ (0.6 : Rat)
    norm_num
  · show (0.6 : Rat) ≤ (2 : Rat)
    norm_num

/-- Witness for C4 (amended): under the default configuration the
configured token limit is the positive default 75, and the built request
then carries a positive `max_tokens`. -/
theorem buildRequest_shape_witness :
    0 < getMaxTokens defaultConfig ∧
    0 < (buildRequest defaultConfig sampleCodeContext "You are a test pet.").max_tokens :=
  ⟨by decide,
    (buildRequest_shape defaultConfig sampleCodeContext "You are a test pet.").2.2.2.2.1
      (by decide)⟩

/-- The content of the first (system) message of a request. -/
def requestSystemContent (req : LLMRequest) : String :=
  (req.messages.headD { role := "", content := "" }).content

/-- A concrete code context used for the personality-switch claim. -/
def switchCodeContext : CodeContext :=
  { language := "python"
    snippet := "print(31)"
    lineNumber := 10
    fileName := "graveyard.py" }

set_option maxRecDepth 8000 in
/-- C7 counterexample: after switching to the skeleton pet with no custom
prompt configured, the system message of the next generated request is the
skeleton systemPrompt with the fixed JSON-format instruction appended, so
it is not equal (as the claim states) to `PERSONALITIES[skeleton].systemPrompt`
itself. -/
theorem switched_pet_system_message_not_bare_prompt :
    requestSystemContent
        (nextGeneratedRequest defaultConfig switchCodeContext PetType.skeleton) ≠
      (PERSONALITIES PetType.skeleton).systemPrompt := by
  intro heq
  have hsel0 : selectPersonality defaultConfig PetType.skeleton =
      (PERSONALITIES PetType.skeleton).systemPrompt := by
    unfold selectPersonality
    rfl
  have hcontent : requestSystemContent
      (nextGeneratedRequest defaultConfig switchCodeContext PetType.skeleton) =
      (PERSONALITIES PetType.skeleton).systemPrompt ++ criticalJsonInstruction := by
    unfold requestSystemContent nextGeneratedRequest buildRequest
    rw [hsel0]
    rfl
  rw [hcontent] at heq
  have hlen := congrArg String.length heq
  rw [String.length_append] at hlen
  have hpos : 0 < criticalJsonInstruction.length := by decide
  omega

set_option maxRecDepth 8000 in
/-- C7 (amended): when the current pet is switched to `pet` and `pet` has
no custom prompt configured, the system message of the next generated
request is `pet`'s predefined personality text followed by the fixed
JSON-format instruction that `buildRequest` always appends — and it does
not coincide with the corresponding message for any other pet's predefined
personality. -/
theorem switched_pet_uses_new_personality (cfg : WorkspaceConfig)
    (codeContext : CodeContext) (pet : PetType)
    (hunset : getCustomPrompt cfg pet = none) :
    requestSystemContent (nextGeneratedRequest cfg codeContext pet) =
      (PERSONALITIES pet).systemPrompt ++ criticalJsonInstruction ∧
    (∀ other : PetType, other ≠ pet →
      requestSystemContent (nextGeneratedRequest cfg codeContext pet) ≠
        (PERSONALITIES other).systemPrompt ++ criticalJsonInstruction) := by
  have hsel : selectPersonality cfg pet = (PERSONALITIES pet).systemPrompt := by
    unfold selectPersonality
    rw [hunset]
  have hmain : requestSystemContent (nextGeneratedRequest cfg codeContext pet) =
      (PERSONALITIES pet).systemPrompt ++ criticalJsonInstruction := by
    unfold requestSystemContent nextGeneratedRequest buildRequest
    rw [hsel]
    rfl
  refine ⟨hmain, ?_⟩
  intro other hne heq
  rw [hmain] at heq
  have hlen := congrArg String.length heq
  rw [String.length_append, String.length_append] at hlen
  have hdistinct : (PERSONALITIES pet).systemPrompt.length ≠
      (PERSONALITIES other).systemPrompt.length := by
    cases pet <;> cases other <;>
      first
        | exact absurd rfl hne
        | decide
  omega

/-- Witness for C7 (amended): under the default configuration the skeleton
pet has no custom prompt, and the next request's system message is the
skeleton systemPrompt plus the JSON-format instruction. -/
theorem switched_pet_uses_new_personality_witness :
    getCustomPrompt defaultConfig PetType.skeleton = none ∧
    requestSystemContent
        (nextGeneratedRequest defaultConfig switchCodeContext PetType.skeleton) =
      (PERSONALITIES PetType.skeleton).systemPrompt ++ criticalJsonInstruction :=
  ⟨rfl,
    (switched_pet_uses_new_personality defaultConfig switchCodeContext
      PetType.skeleton rfl).1⟩
